import Mathlib

/-!
Verification development for the `liveon` content system.

The definitions below are a shallow embedding of the Python sources:
* `app/services/aggregator.py` (feed aggregation and deduplication),
* `app/services/pipeline.py` (article and tip pipelines),
* `app/services/tip_publisher.py` together with `app/models/tip.py`
  (idempotent tip publication),
* the subset of `urllib.parse` (CPython) that `aggregator.py` calls.

Modelling conventions:
* Python `str` is Lean `String`; `str.strip()` and `str.lower()` are
  modelled at the character-list level (ASCII whitespace and case).
* `datetime` values are UTC microsecond counts (`Int`); feedparser time
  tuples carry whole seconds, so entry timestamps are multiples of 10^6.
* Injected collaborators (fetcher, feed parser, LLM-backed stages,
  repository) are modelled as explicit function arguments; a collaborator
  that may raise returns `Except String` carrying the exception text.
* Python dictionaries used as dedup indexes are modelled as functions
  `key → Option Nat`; only `get`, item assignment and `pop` are used.
-/

namespace LiveOn

/-- Microseconds since the epoch, UTC (model of an aware `datetime`). -/
abbrev Micros := Int

/-- Whitespace for Python `str.strip()` (the ASCII cases; the strings
this system manipulates are feed text and URLs). -/
def pyWhitespace (c : Char) : Bool :=
  c = ' ' || c = '\t' || c = '\n' || c = '\r' || c = '\x0b' || c = '\x0c'

/-- Drop trailing characters satisfying `p`. -/
def dropRightWhileList (p : Char → Bool) (cs : List Char) : List Char :=
  (cs.reverse.dropWhile p).reverse

/-- Model of Python `str.strip()`: remove leading and trailing
whitespace. -/
def pystrip (s : String) : String :=
  String.mk (dropRightWhileList pyWhitespace (s.toList.dropWhile pyWhitespace))

/-- ASCII lower-casing of one character. -/
def pylowerChar (c : Char) : Char :=
  if 'A' ≤ c ∧ c ≤ 'Z' then Char.ofNat (c.toNat + 32) else c

/-- Model of Python `str.lower()` (ASCII case folding). -/
def pylower (s : String) : String := String.mk (s.toList.map pylowerChar)

/-- Model of Python `str.startswith(pre)`. -/
def pyStartswith (s : String) (pre : String) : Bool :=
  pre.toList.isPrefixOf s.toList

/-- Split a character list on a separator character (Python
`str.split(sep)` for a one-character separator: empty chunks are
kept). -/
def splitOnChar (sep : Char) (cs : List Char) : List (List Char) :=
  cs.foldr (fun c acc =>
    match acc with
    | [] => [[c]]
    | a :: rest => if c = sep then [] :: a :: rest else (c :: a) :: rest) [[]]

/-- Model of Python `a or b` for strings: `b` when `a` is empty. -/
def pyor (a b : String) : String := if a = "" then b else a

/-! ### Model of the `urllib.parse` subset used by `aggregator.py`

`_normalise_url` and `_has_tracking` call `urlparse`, `parse_qsl`,
`urlencode` and `urlunparse`.  The functions below follow CPython's
implementation of those helpers (scheme detection, netloc splitting,
fragment/query splitting, `;params` splitting, `+`/percent decoding with
UTF-8 byte semantics, `quote_plus` encoding). -/

/-- Characters allowed in a URL scheme after the leading letter
(CPython `scheme_chars`). -/
def schemeChar (c : Char) : Bool :=
  c.isAlpha && c.toNat < 128 || c.isDigit || c = '+' || c = '-' || c = '.'

/-- CPython removes tab, carriage return and newline from the URL before
splitting (`_UNSAFE_URL_BYTES_TO_REMOVE`). -/
def removeUnsafeBytes (cs : List Char) : List Char :=
  cs.filter (fun c => c ≠ '\t' && c ≠ '\r' && c ≠ '\n')

/-- Index of the first occurrence of `c`, if any. -/
def findChar? (cs : List Char) (c : Char) : Option Nat :=
  cs.findIdx? (· = c)

/-- Split `cs` at the first occurrence of `c`, dropping the separator;
`none` when `c` does not occur. -/
def splitFirst? (cs : List Char) (c : Char) : Option (List Char × List Char) :=
  match findChar? cs c with
  | none => none
  | some i => some (cs.take i, cs.drop (i + 1))

/-- `_splitnetloc`: the netloc extends to the first `/`, `?` or `#`. -/
def splitNetloc (cs : List Char) : List Char × List Char :=
  let i := (cs.findIdx? (fun c => c = '/' || c = '?' || c = '#')).getD cs.length
  (cs.take i, cs.drop i)

/-- Result of CPython `urlparse` (six components). -/
structure ParsedUrl where
  scheme : String
  netloc : String
  path : String
  params : String
  query : String
  fragment : String
deriving Repr, DecidableEq

/-- Model of CPython `urlsplit` (without the IPv6 bracket validation,
which only raises on bracket-mismatched URLs and never changes output). -/
def urlsplitM (url : String) : ParsedUrl :=
  let cs := removeUnsafeBytes url.toList
  -- scheme detection: a leading ASCII letter, scheme chars up to ':'
  let (scheme, rest) :=
    match findChar? cs ':' with
    | some i =>
      if 0 < i ∧ (cs.take 1).all (fun c => c.isAlpha && c.toNat < 128) ∧
          ((cs.take i).drop 1).all schemeChar then
        (pylower (String.mk (cs.take i)), cs.drop (i + 1))
      else (("" : String), cs)
    | none => (("" : String), cs)
  let (netloc, rest) :=
    if rest.take 2 = ['/', '/'] then splitNetloc (rest.drop 2)
    else ([], rest)
  let (rest, fragment) := (splitFirst? rest '#').getD (rest, [])
  let (rest, query) := (splitFirst? rest '?').getD (rest, [])
  { scheme := scheme, netloc := String.mk netloc, path := String.mk rest,
    params := "", query := String.mk query, fragment := String.mk fragment }

/-- CPython `_splitparams`: split `;params` off the last path segment. -/
def splitParams (path : List Char) : List Char × List Char :=
  let start := ((path.reverse.findIdx? (· = '/')).map
    (fun j => path.length - 1 - j)).getD 0
  match (path.drop start).findIdx? (· = ';') with
  | none => (path, [])
  | some j => (path.take (start + j), path.drop (start + j + 1))

/-- Model of CPython `urlparse`: `urlsplit` plus params splitting
(params are only split when the path contains `;`). -/
def urlparseM (url : String) : ParsedUrl :=
  let s := urlsplitM url
  if s.path.toList.contains ';' then
    let (p, params) := splitParams s.path.toList
    { s with path := String.mk p, params := String.mk params }
  else s

/-- UTF-8 bytes of a character (CPython encodes `str` to UTF-8 before
percent-encoding, and decodes percent escapes as UTF-8). -/
def utf8Bytes (c : Char) : List Nat :=
  let n := c.toNat
  if n < 0x80 then [n]
  else if n < 0x800 then [0xC0 + n / 0x40, 0x80 + n % 0x40]
  else if n < 0x10000 then
    [0xE0 + n / 0x1000, 0x80 + n / 0x40 % 0x40, 0x80 + n % 0x40]
  else
    [0xF0 + n / 0x40000, 0x80 + n / 0x1000 % 0x40, 0x80 + n / 0x40 % 0x40,
      0x80 + n % 0x40]

/-- Decode a UTF-8 byte stream; bytes that do not form a valid sequence
are passed through as Latin-1 code points (stand-in for CPython's
`errors="replace"`, which the aggregator never hits on feed URLs).
`fuel` bounds the recursion (structurally); it never runs out when
initialised with the list length. -/
def utf8DecodeAux : Nat → List Nat → List Char
  | 0, _ => []
  | _, [] => []
  | fuel + 1, b :: bs =>
    if b < 0x80 then Char.ofNat b :: utf8DecodeAux fuel bs
    else if 0xC0 ≤ b ∧ b < 0xE0 then
      match bs with
      | b1 :: rest =>
        if 0x80 ≤ b1 ∧ b1 < 0xC0 then
          Char.ofNat ((b - 0xC0) * 0x40 + (b1 - 0x80)) ::
            utf8DecodeAux fuel rest
        else Char.ofNat b :: utf8DecodeAux fuel bs
      | [] => [Char.ofNat b]
    else if 0xE0 ≤ b ∧ b < 0xF0 then
      match bs with
      | b1 :: b2 :: rest =>
        if (0x80 ≤ b1 ∧ b1 < 0xC0) ∧ (0x80 ≤ b2 ∧ b2 < 0xC0) then
          Char.ofNat ((b - 0xE0) * 0x1000 + (b1 - 0x80) * 0x40 + (b2 - 0x80)) ::
            utf8DecodeAux fuel rest
        else Char.ofNat b :: utf8DecodeAux fuel bs
      | [b1] => Char.ofNat b :: utf8DecodeAux fuel [b1]
      | [] => [Char.ofNat b]
    else Char.ofNat b :: utf8DecodeAux fuel bs

/-- Decode a UTF-8 byte stream (see `utf8DecodeAux`). -/
def utf8Decode (bs : List Nat) : List Char := utf8DecodeAux bs.length bs

/-- Hex digit value of a character, if it is one. -/
def hexVal? (c : Char) : Option Nat :=
  if '0' ≤ c ∧ c ≤ '9' then some (c.toNat - '0'.toNat)
  else if 'a' ≤ c ∧ c ≤ 'f' then some (c.toNat - 'a'.toNat + 10)
  else if 'A' ≤ c ∧ c ≤ 'F' then some (c.toNat - 'A'.toNat + 10)
  else none

/-- Turn a character stream into bytes, resolving `%XX` escapes
(invalid escapes pass the `%` through, as CPython `unquote` does). -/
def unquoteBytes : List Char → List Nat
  | [] => []
  | '%' :: c1 :: c2 :: rest =>
    match hexVal? c1, hexVal? c2 with
    | some h1, some h2 => (h1 * 16 + h2) :: unquoteBytes rest
    | _, _ => utf8Bytes '%' ++ unquoteBytes (c1 :: c2 :: rest)
  | c :: rest => utf8Bytes c ++ unquoteBytes rest

/-- Model of CPython `urllib.parse.unquote` (UTF-8). -/
def unquoteM (s : String) : String :=
  String.mk (utf8Decode (unquoteBytes s.toList))

/-- Model of CPython `parse_qsl(qs, keep_blank_values=True)`:
split on `&`, drop empty chunks, split each chunk at the first `=`
(a chunk with no `=` keeps a blank value), replace `+` by space and
percent-decode names and values. -/
def parseQsl (qs : String) : List (String × String) :=
  (splitOnChar '&' qs.toList).filterMap (fun nv =>
    if nv = [] then none
    else
      let (name, value) := (splitFirst? nv '=').getD (nv, [])
      let dec := fun (cs : List Char) =>
        unquoteM (String.mk (cs.map (fun c => if c = '+' then ' ' else c)))
      some (dec name, dec value))

/-- Bytes left unescaped by CPython `quote` with `safe=''`
(ASCII letters, digits, `_.-~`). -/
def quoteSafe (b : Nat) : Bool :=
  (0x41 ≤ b ∧ b ≤ 0x5A) || (0x61 ≤ b ∧ b ≤ 0x7A) || (0x30 ≤ b ∧ b ≤ 0x39) ||
    b = 0x5F || b = 0x2E || b = 0x2D || b = 0x7E

/-- Upper-case hex digit for a value below 16. -/
def hexDigit (n : Nat) : Char :=
  if n < 10 then Char.ofNat ('0'.toNat + n) else Char.ofNat ('A'.toNat + n - 10)

/-- Model of CPython `quote_plus(s, safe='')`: encode to UTF-8, keep safe
bytes, turn spaces into `+`, percent-encode the rest. -/
def quotePlus (s : String) : String :=
  String.mk ((s.toList.flatMap utf8Bytes).flatMap (fun b =>
    if quoteSafe b then [Char.ofNat b]
    else if b = 0x20 then ['+']
    else ['%', hexDigit (b / 16), hexDigit (b % 16)]))

/-- Model of CPython `urlencode(pairs, doseq=True)` on string pairs. -/
def urlencodeM (pairs : List (String × String)) : String :=
  String.intercalate "&" (pairs.map (fun kv => quotePlus kv.1 ++ "=" ++ quotePlus kv.2))

/-- Model of CPython `urlunparse` (via `urlunsplit`). -/
def urlunparseM (p : ParsedUrl) : String :=
  let url := if p.params ≠ "" then p.path ++ ";" ++ p.params else p.path
  let url :=
    if p.netloc ≠ "" ∨ (url ≠ "" ∧ url.toList.take 2 = ['/', '/']) then
      "//" ++ p.netloc ++
        (if url ≠ "" ∧ url.toList.take 1 ≠ ['/'] then "/" ++ url else url)
    else url
  let url := if p.scheme ≠ "" then p.scheme ++ ":" ++ url else url
  let url := if p.query ≠ "" then url ++ "?" ++ p.query else url
  if p.fragment ≠ "" then url ++ "#" ++ p.fragment else url

/-- Python string comparison: lexicographic on code points. -/
def charListLt : List Char → List Char → Bool
  | [], [] => false
  | [], _ :: _ => true
  | _ :: _, [] => false
  | a :: as, b :: bs =>
    if a.toNat < b.toNat then true
    else if b.toNat < a.toNat then false
    else charListLt as bs

/-- Python tuple comparison on string pairs (used by `list.sort`):
`a ≤ b` lexicographically.  `list.sort` is a stable sort; on a total
order the result does not depend on stability, and it is modelled by
`List.insertionSort` (chosen over `mergeSort` because it evaluates by
structural recursion). -/
def pairLeB (a b : String × String) : Bool :=
  charListLt a.1.toList b.1.toList ||
    (a.1 == b.1 && (a.2 == b.2 || charListLt a.2.toList b.2.toList))

/-- The ordering `List.insertionSort` expects, as a relation. -/
def pairLe (a b : String × String) : Prop := pairLeB a b = true

instance : DecidableRel pairLe := fun a b => by
  unfold pairLe
  infer_instance

/-! ### `app/models/aggregator.py` -/

/-- `FeedSource`: configuration for a single external content feed. -/
structure FeedSource where
  name : String
  url : String
  topic : Option String := none
deriving Repr, DecidableEq

/-- `AggregatedContent` (`app/models/aggregator.py`).  `published_at` is a
UTC microsecond count; `rawId` and `rawGuid` model `raw.get("id")` and
`raw.get("guid")` coerced through `str()`, with `""` for an absent or
falsy value (exactly the cases `_guid_key`'s `or`-chain skips). -/
structure AggregatedContent where
  title : String
  url : String
  summary : String
  published_at : Micros
  source : String
  topic : Option String := none
  rawId : String := ""
  rawGuid : String := ""
deriving Repr, DecidableEq

/-- A feedparser entry as consumed by `AggregatedContent.from_feed_entry`:
the fields the code reads, each `none` when missing.  `published_parsed`
and `updated_parsed` are `time.struct_time` values, which carry whole
seconds.  `contentValues` holds the `"value"` field of each element of
`entry.get("content")` (cleaned by `_coerce_summary`). -/
structure RawEntry where
  title : Option String := none
  link : Option String := none
  summary : Option String := none
  description : Option String := none
  contentValues : List (Option String) := []
  published_parsed : Option Int := none
  updated_parsed : Option Int := none
  id : Option String := none
  guid : Option String := none
deriving Repr, DecidableEq

/-- `_clean` inside `_coerce_summary`: a stripped non-empty string. -/
def cleanValue (v : Option String) : Option String :=
  match v with
  | none => none
  | some s => let t := pystrip s; if t = "" then none else some t

/-- `_coerce_summary` (`app/models/aggregator.py`). -/
def coerceSummary (e : RawEntry) : String :=
  match cleanValue e.summary with
  | some s => s
  | none =>
    match cleanValue e.description with
    | some s => s
    | none =>
      match (e.contentValues.filterMap cleanValue).head? with
      | some s => s
      | none => ""

/-- `_coerce_datetime` (`app/models/aggregator.py`): the first present
time tuple, else `datetime.now` — passed in as `now`. -/
def coerceDatetime (e : RawEntry) (now : Micros) : Micros :=
  match e.published_parsed with
  | some s => s * 1000000
  | none =>
    match e.updated_parsed with
    | some s => s * 1000000
    | none => now

/-- `AggregatedContent.from_feed_entry`.  `now` models `datetime.now`
for entries with no parsed timestamp. -/
def fromFeedEntry (e : RawEntry) (source : FeedSource) (now : Micros) :
    AggregatedContent :=
  { title := pyor (pystrip (e.title.getD "")) "Untitled update"
    url := pystrip (e.link.getD "")
    summary := coerceSummary e
    published_at := coerceDatetime e now
    source := source.name
    topic := source.topic
    rawId := e.id.getD ""
    rawGuid := e.guid.getD "" }

/-! ### `app/services/aggregator.py` -/

/-- `AggregationResult`. -/
structure AggregationResult where
  items : List AggregatedContent
  errors : List String
deriving Repr, DecidableEq

/-- `_normalise_url` (`app/services/aggregator.py`): lowercase scheme and
host, drop the fragment, keep only query parameters whose name does not
start with `utm_` (case-insensitive), sort and re-encode them. -/
def normaliseUrl (url : String) : String :=
  if url = "" then ""
  else
    let parsed := urlparseM url
    let scheme := pylower parsed.scheme
    let netloc := pylower parsed.netloc
    let queryPairs := (parseQsl parsed.query).filter
      (fun kv => ¬ pyStartswith (pylower kv.1) "utm_")
    let sortedPairs := List.insertionSort pairLe queryPairs
    urlunparseM
      { scheme := scheme, netloc := netloc, path := parsed.path,
        params := parsed.params, query := urlencodeM sortedPairs,
        fragment := "" }

/-- `_signature_key`: lowercased stripped title paired with the
timestamp truncated to whole seconds (`microsecond=0`); the code uses
`isoformat()`, which is injective on truncated UTC datetimes, so the
truncated count itself is an equivalent key. -/
def signatureKey (item : AggregatedContent) : String × Micros :=
  (pylower (pystrip item.title),
    item.published_at - item.published_at % 1000000)

/-- `_guid_key`: `raw.get("id") or raw.get("guid") or ""`, stripped and
lowercased. -/
def guidKey (item : AggregatedContent) : String :=
  pylower (pystrip (pyor item.rawId (pyor item.rawGuid "")))

/-- `_has_tracking`: the URL has a query parameter whose name starts
with `utm_` (case-insensitive). -/
def hasTracking (url : String) : Bool :=
  if url = "" then false
  else (parseQsl (urlparseM url).query).any
    (fun kv => pyStartswith (pylower kv.1) "utm_")

/-- `_should_replace` (`app/services/aggregator.py`). -/
def shouldReplace (existing candidate : AggregatedContent) : Bool :=
  if existing.url = "" ∧ candidate.url ≠ "" then true
  else if candidate.url = "" then false
  else
    let existingNormalized := normaliseUrl existing.url
    let candidateNormalized := normaliseUrl candidate.url
    if existingNormalized = "" then true
    else if existingNormalized ≠ candidateNormalized then false
    else if hasTracking existing.url ∧ ¬ hasTracking candidate.url then true
    else decide (candidate.url.length < existing.url.length)

/-- Python dict lookup (`d.get(k)`) for the dedup indexes. -/
abbrev Index (κ : Type) := κ → Option Nat

/-- Dict item assignment `d[k] = v`. -/
def indexSet {κ : Type} [DecidableEq κ] (m : Index κ) (k : κ) (v : Nat) :
    Index κ :=
  fun k' => if k' = k then some v else m k'

/-- Dict removal `d.pop(k, None)`. -/
def indexPop {κ : Type} [DecidableEq κ] (m : Index κ) (k : κ) : Index κ :=
  fun k' => if k' = k then none else m k'

/-- The dedup state local to `gather`: `collected` plus the three
lookup indexes (`errors` is tracked separately, see `GatherState`). -/
structure GatherCore where
  collected : List AggregatedContent
  byUrl : Index String
  byGuid : Index String
  bySig : Index (String × Micros)

/-- The empty initial dedup state. -/
def GatherCore.init : GatherCore :=
  { collected := [], byUrl := fun _ => none, byGuid := fun _ => none,
    bySig := fun _ => none }

/-- `_record_indexes`: register all three keys against `index`
(empty URL and GUID keys are not registered). -/
def recordIndexes (core : GatherCore) (normalizedUrl : String)
    (guid : String) (signature : String × Micros) (index : Nat) :
    GatherCore :=
  { core with
    byUrl := if normalizedUrl ≠ "" then indexSet core.byUrl normalizedUrl index
      else core.byUrl
    byGuid := if guid ≠ "" then indexSet core.byGuid guid index else core.byGuid
    bySig := indexSet core.bySig signature index }

/-- `_remove_indexes`: drop the replaced item's keys. -/
def removeIndexes (core : GatherCore) (item : AggregatedContent) :
    GatherCore :=
  let normalizedUrl := normaliseUrl item.url
  { core with
    byUrl := if normalizedUrl ≠ "" then indexPop core.byUrl normalizedUrl
      else core.byUrl
    byGuid := let g := guidKey item
      if g ≠ "" then indexPop core.byGuid g else core.byGuid
    bySig := indexPop core.bySig (signatureKey item) }

/-- Fallback element for list indexing that is valid by construction
(Python `collected[existing_index]`). -/
def dummyContent : AggregatedContent :=
  { title := "", url := "", summary := "", published_at := 0, source := "" }

/-- The match-handling branch shared by the three lookups in `gather`:
replace the existing item (re-registering keys) when `_should_replace`
says so, else silently drop the candidate. -/
def replaceOrDrop (core : GatherCore) (aggregated : AggregatedContent)
    (normalizedUrl : String) (guid : String)
    (signature : String × Micros) (existingIndex : Nat) : GatherCore :=
  let existing := core.collected.getD existingIndex dummyContent
  if shouldReplace existing aggregated then
    let core := removeIndexes core existing
    let core := { core with
      collected := core.collected.set existingIndex aggregated }
    recordIndexes core normalizedUrl guid signature existingIndex
  else core

/-- The body of the entry loop in `gather`: URL key first, then GUID,
then signature; on a miss everywhere, append and register. -/
def processEntry (core : GatherCore) (aggregated : AggregatedContent) :
    GatherCore :=
  let normalizedUrl := normaliseUrl aggregated.url
  let signature := signatureKey aggregated
  let guid := guidKey aggregated
  match (if normalizedUrl = "" then none else core.byUrl normalizedUrl) with
  | some existingIndex =>
    replaceOrDrop core aggregated normalizedUrl guid signature existingIndex
  | none =>
    match (if guid = "" then none else core.byGuid guid) with
    | some existingIndex =>
      replaceOrDrop core aggregated normalizedUrl guid signature existingIndex
    | none =>
      match core.bySig signature with
      | some existingIndex =>
        replaceOrDrop core aggregated normalizedUrl guid signature existingIndex
      | none =>
        let collected := core.collected ++ [aggregated]
        let index := collected.length - 1
        recordIndexes { core with collected := collected } normalizedUrl guid
          signature index

/-- What fetching and parsing one feed produced.  The injected fetcher
may raise (`httpError` for `httpx.HTTPError`, `otherError` for anything
else); `parsed` carries feedparser's `bozo` flag, `bozo_exception`
(rendered to text) and the entry list. -/
inductive FetchResult where
  | httpError (msg : String)
  | otherError (msg : String)
  | parsed (bozo : Bool) (bozoException : Option String)
      (entries : List RawEntry)
deriving Repr, DecidableEq

/-- The diagnostic `gather` records for a failing feed, if it fails. -/
def feedFailure? (feed : FeedSource × FetchResult) : Option String :=
  match feed.2 with
  | .httpError msg =>
    some ("Failed to fetch feed '" ++ feed.1.name ++ "': " ++ msg)
  | .otherError msg =>
    some ("Unexpected error fetching feed '" ++ feed.1.name ++ "': " ++ msg)
  | .parsed bozo bozoException _ =>
    if bozo ∧ bozoException.isSome then
      some ("Feed '" ++ feed.1.name ++ "' could not be parsed: " ++
        bozoException.getD "")
    else none

/-- Accumulated `gather` state: dedup core plus the error list. -/
structure GatherState where
  core : GatherCore
  errors : List String

/-- The body of the feed loop in `gather`: a fetch or parse failure
appends a diagnostic and skips the feed; otherwise the first `limit`
entries are converted and deduplicated. -/
def processFeed (limit : Nat) (now : Micros) (st : GatherState)
    (feed : FeedSource × FetchResult) : GatherState :=
  match feedFailure? feed with
  | some msg => { st with errors := st.errors ++ [msg] }
  | none =>
    match feed.2 with
    | .parsed _ _ entries =>
      let items := (entries.take limit).map (fun e => fromFeedEntry e feed.1 now)
      { st with core := items.foldl processEntry st.core }
    | _ => st

/-- The dedup-core part of one feed step (used to state that the error
accumulator and the dedup state evolve independently). -/
def coreStep (limit : Nat) (now : Micros) (core : GatherCore)
    (feed : FeedSource × FetchResult) : GatherCore :=
  match feedFailure? feed with
  | some _ => core
  | none =>
    match feed.2 with
    | .parsed _ _ entries =>
      ((entries.take limit).map (fun e => fromFeedEntry e feed.1 now)).foldl
        processEntry core
    | _ => core

/-- Sort key comparison for the final `collected.sort(key=published_at,
reverse=True)`: a stable descending sort, modelled by the stable
`List.insertionSort` (which evaluates by structural recursion). -/
def publishedDesc (a b : AggregatedContent) : Prop :=
  b.published_at ≤ a.published_at

instance : DecidableRel publishedDesc := fun a b =>
  Int.decLe b.published_at a.published_at

instance : IsTotal AggregatedContent publishedDesc :=
  ⟨fun a b => Int.le_total b.published_at a.published_at⟩

instance : IsTrans AggregatedContent publishedDesc :=
  ⟨fun _ _ _ hab hbc => le_trans hbc hab⟩

/-- The dedup state after the feed loop of
`LongevityNewsAggregator.gather`, before sorting.  Each feed is paired
with what its fetch/parse produced (the injected fetcher and the feed
parser are external collaborators); `limit_per_feed` is clamped with
`max(0, ...)` as in the source. -/
def gatherCollect (feeds : List (FeedSource × FetchResult))
    (limitPerFeed : Int) (now : Micros) : GatherState :=
  feeds.foldl (processFeed (max 0 limitPerFeed).toNat now)
    { core := GatherCore.init, errors := [] }

/-- `LongevityNewsAggregator.gather`: dedup across all feeds, then sort
by `published_at` descending (Python's stable `list.sort`). -/
def gather (feeds : List (FeedSource × FetchResult)) (limitPerFeed : Int)
    (now : Micros) : AggregationResult :=
  let st := gatherCollect feeds limitPerFeed now
  { items := List.insertionSort publishedDesc st.core.collected,
    errors := st.errors }

/-! ### Models for the article pipeline
(`app/models/summarizer.py`, `app/models/editor.py`,
`app/models/content.py`, `app/models/publisher.py`). -/

/-- `ArticleDraft` (`app/models/summarizer.py`). -/
structure ArticleDraft where
  title : String
  summary : String
  body : String
  takeaways : List String := []
  sources : List String := []
  tags : List String := []
deriving Repr, DecidableEq

/-- `EditedArticle` (`app/models/editor.py`). -/
structure EditedArticle where
  title : String
  summary : String
  body : String
  sources : List String := []
  tags : List String := []
  takeaways : List String := []
  disclaimer : Option String := none
deriving Repr, DecidableEq

/-- `Article` (`app/models/content.py`). -/
structure Article where
  title : String
  content_body : String
  summary : Option String := none
  published_date : Micros := 0
  source_urls : List String := []
  tags : List String := []
  id : Option String := none
deriving Repr, DecidableEq

/-- `PublicationResult` (`app/models/publisher.py`); `path` is the
rendered filesystem path. -/
structure PublicationResult where
  slug : String
  path : String
  commit_hash : Option String := none
  published_at : Micros
deriving Repr, DecidableEq

/-- A character kept verbatim by `_SLUG_PATTERN = re.compile(r"[^a-z0-9]+")`. -/
def slugChar (c : Char) : Bool :=
  ('a' ≤ c ∧ c ≤ 'z') || ('0' ≤ c ∧ c ≤ '9')

/-- `_SLUG_PATTERN.sub("-", s)`: each maximal run of non-slug characters
becomes a single hyphen. -/
def slugSub : List Char → List Char
  | [] => []
  | c :: rest =>
    if slugChar c then c :: slugSub rest
    else '-' :: slugSub (rest.dropWhile (fun d => ¬ slugChar d))
termination_by l => l.length
decreasing_by
  all_goals simp
  calc (List.dropWhile _ rest).length ≤ rest.length :=
      (List.dropWhile_sublist _).length_le
    _ < rest.length + 1 := Nat.lt_succ_self _

/-- Python `str.strip("-")`. -/
def stripDashes (cs : List Char) : List Char :=
  ((cs.dropWhile (· = '-')).reverse.dropWhile (· = '-')).reverse

/-- `_slugify` (`app/services/publisher.py`). -/
def slugify (value : String) : String :=
  pyor (String.mk (stripDashes (slugSub (pylower value).toList))) "article"

/-- `PipelineResult` (`app/services/pipeline.py`). -/
structure PipelineResult where
  aggregation : AggregationResult
  draft : Option ArticleDraft := none
  edited : Option EditedArticle := none
  publication : Option PublicationResult := none
  errors : List String := []
  warnings : List String := []
deriving Repr, DecidableEq

/-- `PipelineResult.succeeded`. -/
def PipelineResult.succeeded (r : PipelineResult) : Bool :=
  r.publication.isSome && r.errors.isEmpty

/-- The injected collaborators of `ContentPipeline`, as pure functions.
A stage that may raise returns `Except String` carrying the exception
text.  `repository` models `self.repository or getattr(self.publisher,
"repository", None)`: the repository actually consulted, when any is
wired.  `publish` receives the article, slug, commit message and
publication time. -/
structure ArticleStages where
  gather : Int → AggregationResult
  summarize : List AggregatedContent → Except String ArticleDraft
  revise : ArticleDraft → Except String EditedArticle
  publish : EditedArticle → Option String → Option String → Option Micros →
    Except String PublicationResult
  repository : Option (String → Option Article) := none

/-- Which collaborators `ContentPipeline.run` invoked, in order: the
URLs passed to `repository.find_article_by_source_url`, and the
arguments of each `summarize`/`revise`/`publish` call. -/
structure ArticleTrace where
  repoCalls : List String := []
  summarizerCalls : List (List AggregatedContent) := []
  editorCalls : List ArticleDraft := []
  publisherCalls : List EditedArticle := []
deriving Repr, DecidableEq

/-- The selection loop of `ContentPipeline.run` when a repository is
available: skip items with a blank URL, look each remaining URL up, and
stop at the first URL the store does not know.  Also returns the lookup
calls made, in order. -/
def selectWithRepo (repo : String → Option Article) :
    List AggregatedContent → Option AggregatedContent × List String
  | [] => (none, [])
  | item :: rest =>
    let url := pystrip item.url
    if url = "" then selectWithRepo repo rest
    else
      match repo url with
      | none => (some item, [url])
      | some _ =>
        let r := selectWithRepo repo rest
        (r.1, url :: r.2)

/-- The selection loop of `ContentPipeline.run` without a repository:
the first item with a non-blank URL. -/
def selectNoRepo : List AggregatedContent → Option AggregatedContent
  | [] => none
  | item :: rest => if pystrip item.url = "" then selectNoRepo rest else some item

/-- Specification helper for the freshness claim: the elements visited
when scanning `l` in order and stopping at — and including — the first
element satisfying `p` (all of `l` when none does). -/
def takeThroughFirst {α : Type} (p : α → Bool) (l : List α) : List α :=
  l.takeWhile (fun a => ¬ p a) ++ (l.dropWhile (fun a => ¬ p a)).take 1

/-- Specification helper for the tracking-invariance claim: `u1` and
`u2` parse to the same scheme, netloc, path and params, the non-`utm_`
query parameters of `u1` are exactly the parameters of `u2` (in order),
and `u2` carries no `utm_` parameter. -/
def DiffOnlyByUtm (u1 u2 : String) : Prop :=
  (urlparseM u1).scheme = (urlparseM u2).scheme ∧
  (urlparseM u1).netloc = (urlparseM u2).netloc ∧
  (urlparseM u1).path = (urlparseM u2).path ∧
  (urlparseM u1).params = (urlparseM u2).params ∧
  (parseQsl (urlparseM u1).query).filter
      (fun kv => ¬ pyStartswith (pylower kv.1) "utm_") =
    parseQsl (urlparseM u2).query ∧
  ∀ kv ∈ parseQsl (urlparseM u2).query, ¬ pyStartswith (pylower kv.1) "utm_"

/-- `ContentPipeline.run` (`app/services/pipeline.py`), paired with the
trace of collaborator calls.  A publisher exception is only logged: the
`errors.append("Publisher failed: ...")` line is commented out in the
source, so `errors` is returned unchanged on that path. -/
def runContentPipeline (p : ArticleStages) (limitPerFeed : Int)
    (slug commitMessage : Option String) (publishedAt : Option Micros) :
    PipelineResult × ArticleTrace :=
  let aggregation := p.gather limitPerFeed
  let warnings := aggregation.errors
  let errors : List String := []
  let sel :=
    match p.repository with
    | some repo => selectWithRepo repo aggregation.items
    | none => (selectNoRepo aggregation.items, [])
  let trace : ArticleTrace := { repoCalls := sel.2 }
  match sel.1 with
  | none =>
    ({ aggregation := aggregation, errors := errors,
       warnings := warnings ++
         [if aggregation.items ≠ [] then
            "No new aggregated content available to publish."
          else "No aggregated content available to summarise."] }, trace)
  | some selectedItem =>
    let tryItems := [selectedItem]
    let trace := { trace with summarizerCalls := [tryItems] }
    match p.summarize tryItems with
    | .error exc =>
      ({ aggregation := aggregation,
         errors := errors ++ ["Summarizer failed: " ++ exc],
         warnings := warnings }, trace)
    | .ok draft =>
      let trace := { trace with editorCalls := [draft] }
      match p.revise draft with
      | .error exc =>
        ({ aggregation := aggregation, draft := some draft,
           errors := errors ++ ["Editor failed: " ++ exc],
           warnings := warnings }, trace)
      | .ok edited =>
        let slugToUse := pyor (slug.getD "")
          (slugify (pyor selectedItem.title (pyor selectedItem.url "")))
        let trace := { trace with publisherCalls := [edited] }
        match p.publish edited (some slugToUse) commitMessage publishedAt with
        | .error _exc =>
          ({ aggregation := aggregation, draft := some draft,
             edited := some edited, errors := errors,
             warnings := warnings }, trace)
        | .ok publication =>
          ({ aggregation := aggregation, draft := some draft,
             edited := some edited, publication := some publication,
             errors := errors, warnings := warnings }, trace)

/-! ### Tip models (`app/models/tip.py`, `app/models/content.py`,
`app/models/tip_editor.py`). -/

/-- `Tip` (`app/models/content.py`). -/
structure Tip where
  title : String
  content_body : String
  published_date : Micros := 0
  tags : List String := []
  id : Option String := none
deriving Repr, DecidableEq

/-- `TipDraft` (`app/models/tip.py`).  Metadata values are opaque to all
the code modelled here, so they are kept as strings. -/
structure TipDraft where
  title : String
  body : String
  tags : List String := []
  metadata : List (String × String) := []
deriving Repr, DecidableEq

/-- A placeholder draft for total list/option access. -/
def dummyTipDraft : TipDraft := { title := "", body := "" }

/-- `TipDraft.with_defaults`: trim the title (falling back to
`"Longevity Tip"`), trim the body, keep the trimmed non-empty tags. -/
def TipDraft.with_defaults (d : TipDraft) : TipDraft :=
  { title := pyor (pystrip d.title) "Longevity Tip"
    body := pystrip d.body
    tags := (d.tags.filter (fun tag => pystrip tag ≠ "")).map pystrip
    metadata := d.metadata }

/-- `TipReviewResult` (`app/models/tip_editor.py`). -/
structure TipReviewResult where
  is_approved : Bool
  feedback : Option String := none
  revised_draft : Option TipDraft := none
deriving Repr, DecidableEq

/-! ### `app/services/tip_publisher.py` -/

/-- `TipPublicationResult`. -/
structure TipPublicationResult where
  tip : Tip
  created : Bool
deriving Repr, DecidableEq

/-- The repository helpers used by `TipPublisher`
(`SupportsTipRepository`), as pure functions. -/
structure TipRepo where
  find_tip_by_title : String → Option Tip
  find_tip_by_tags : List String → Option Tip
  save_tip : Tip → Tip

/-- Python `{tag.strip() for tag in tags if isinstance(tag, str) and
tag.strip()}`: the set of trimmed non-empty tags. -/
def pyTagSet (tags : List String) : Finset String :=
  ((tags.map pystrip).filter (· ≠ "")).toFinset

/-- `TipPublisher._matches`: same trimmed title, same trimmed body, same
tag set. -/
def tipMatches (existing : Tip) (draft : TipDraft) : Bool :=
  decide (pystrip existing.title = pystrip draft.title) &&
    decide (pystrip existing.content_body = pystrip draft.body) &&
    decide (pyTagSet existing.tags = pyTagSet draft.tags)

/-- Repository calls made by one `TipPublisher.publish` invocation, in
order: titles passed to `find_tip_by_title`, tag lists passed to
`find_tip_by_tags`, and tips passed to `save_tip`. -/
structure TipPubTrace where
  titleLookups : List String := []
  tagLookups : List (List String) := []
  saves : List Tip := []
deriving Repr, DecidableEq

/-- A lookup result that only counts when `_matches` accepts it
(`by_title is not None and self._matches(by_title, draft)`). -/
def checkMatch (candidate : Option Tip) (draft : TipDraft) : Option Tip :=
  match candidate with
  | some t => if tipMatches t draft then some t else none
  | none => none

/-- `TipPublisher._find_existing`: try the exact (trimmed) title first,
then the tag set; a hit counts only when `_matches` accepts it. -/
def findExistingTip (repo : TipRepo) (draft : TipDraft) :
    Option Tip × TipPubTrace :=
  let title := pystrip draft.title
  let titleLookups := if title ≠ "" then [title] else []
  let byTitle :=
    if title ≠ "" then checkMatch (repo.find_tip_by_title title) draft else none
  match byTitle with
  | some t => (some t, { titleLookups := titleLookups })
  | none =>
    let tagLookups := if draft.tags ≠ [] then [draft.tags] else []
    let byTags :=
      if draft.tags ≠ [] then checkMatch (repo.find_tip_by_tags draft.tags) draft
      else none
    (byTags, { titleLookups := titleLookups, tagLookups := tagLookups })

/-- `TipPublisher.publish`: normalise the draft, reject an empty body
before touching the repository, reuse a semantically identical stored
tip (`created=False`), otherwise save a new record (`created=True`).
`now` models `datetime.now(timezone.utc)` when no `published_at` is
given. -/
def publishTip (repo : TipRepo) (draft : TipDraft)
    (publishedAt : Option Micros) (now : Micros) :
    Except String TipPublicationResult × TipPubTrace :=
  let normalised := draft.with_defaults
  if normalised.body = "" then
    (.error "Tip draft body cannot be empty", {})
  else
    let found := findExistingTip repo normalised
    match found.1 with
    | some existing => (.ok { tip := existing, created := false }, found.2)
    | none =>
      let published := publishedAt.getD now
      let tip : Tip :=
        { title := normalised.title, content_body := normalised.body,
          published_date := published, tags := normalised.tags }
      let stored := repo.save_tip tip
      (.ok { tip := stored, created := true },
        { found.2 with saves := [tip] })

/-! ### `TipPipeline` (`app/services/pipeline.py`). -/

/-- `TipPipelineResult`. -/
structure TipPipelineResult where
  aggregation : AggregationResult
  draft : Option TipDraft := none
  tip : Option Tip := none
  publication : Option TipPublicationResult := none
  errors : List String := []
  warnings : List String := []
  generation_attempts : Nat := 1
  editor_feedback : List String := []
deriving Repr, DecidableEq

/-- The injected collaborators of `TipPipeline`.  The generator and the
editor are indexed by the attempt number so a stub can behave
differently per attempt (in the source they are stateful objects);
`get_latest_tips` models `repository.get_latest_tips(limit=20)`. -/
structure TipStages where
  gather : Int → AggregationResult
  get_latest_tips : Except String (List Tip)
  generate : Nat → List AggregatedContent → Option String →
    Except String (Option TipDraft)
  review : Nat → TipDraft → List Tip → Except String TipReviewResult
  publish : TipDraft → Option Micros → Except String TipPublicationResult

/-- Collaborator calls made by one `TipPipeline.run`: the feedback value
passed to each `generate` call, the drafts passed to `review`, and the
drafts passed to `publish`. -/
structure TipTrace where
  genCalls : List (Option String) := []
  reviewCalls : List TipDraft := []
  pubCalls : List TipDraft := []
deriving Repr, DecidableEq

/-- The mutable locals of the generation loop in `TipPipeline.run`,
plus the call trace. -/
structure TipLoopState where
  attempt : Nat := 0
  feedback : Option String := none
  draft : Option TipDraft := none
  reviewResult : Option TipReviewResult := none
  errors : List String := []
  warnings : List String := []
  feedbackLog : List String := []
  genCalls : List (Option String) := []
  reviewCalls : List TipDraft := []

/-- The `while attempt < MAX_GENERATION_ATTEMPTS` loop of
`TipPipeline.run`.  `fuel` is the number of iterations the guard still
allows (`maxAttempts - attempt`); approval returns without recursing
(the `break`). -/
def tipLoop (stages : TipStages) (items : List AggregatedContent)
    (existingTips : List Tip) (maxAttempts : Nat) :
    Nat → TipLoopState → TipLoopState
  | 0, s => s
  | fuel + 1, s =>
    let attempt := s.attempt + 1
    let s0 := { s with attempt := attempt, genCalls := s.genCalls ++ [s.feedback] }
    match stages.generate attempt items s.feedback with
    | .error exc =>
      let errorMsg :=
        "Tip generator failed on attempt " ++ toString attempt ++ ": " ++ exc
      tipLoop stages items existingTips maxAttempts fuel
        { s0 with
          errors := s0.errors ++ [errorMsg]
          feedback := some ("The previous attempt failed with error '" ++ exc ++
            "'. Generate a new, high-quality tip that avoids that issue.")
          feedbackLog := s0.feedbackLog ++ [errorMsg] }
    | .ok draftOpt =>
      let s1 := { s0 with draft := draftOpt }
      if draftOpt.isNone ∨ pystrip (draftOpt.getD dummyTipDraft).body = "" then
        let warningMsg :=
          "Generator produced empty draft on attempt " ++ toString attempt ++ "."
        tipLoop stages items existingTips maxAttempts fuel
          { s1 with
            warnings := s1.warnings ++ [warningMsg]
            feedback := some ("The generated tip was empty or invalid. " ++
              "Produce a concise title and body with actionable guidance.")
            feedbackLog := s1.feedbackLog ++ [warningMsg] }
      else
        let draft := draftOpt.getD dummyTipDraft
        let s2 := { s1 with reviewCalls := s1.reviewCalls ++ [draft] }
        match stages.review attempt draft existingTips with
        | .error exc =>
          let errorMsg :=
            "Tip editor failed on attempt " ++ toString attempt ++ ": " ++ exc
          tipLoop stages items existingTips maxAttempts fuel
            { s2 with
              errors := s2.errors ++ [errorMsg]
              feedback := some ("The previous tip could not be reviewed due " ++
                "to an internal error. Propose a fresh tip that strictly " ++
                "follows the rubric.")
              feedbackLog := s2.feedbackLog ++ [errorMsg]
              reviewResult := none }
        | .ok reviewResult =>
          let reviewFeedback := reviewResult.feedback.getD ""
          let s3 := { s2 with
            feedbackLog := s2.feedbackLog ++
              [if reviewFeedback ≠ "" then
                "Attempt " ++ toString attempt ++ " feedback: " ++ reviewFeedback
               else
                "Attempt " ++ toString attempt ++
                  " feedback: (no feedback provided)"] }
          if reviewResult.is_approved then
            { s3 with reviewResult := some reviewResult }
          else
            let feedback := pyor reviewFeedback
              ("The tip was rejected for unspecified reasons. " ++
                "Provide a more novel, concise insight.")
            tipLoop stages items existingTips maxAttempts fuel
              { s3 with
                feedback := some feedback
                warnings := s3.warnings ++
                  ["Tip draft rejected (Attempt " ++ toString attempt ++ "/" ++
                    toString maxAttempts ++ "): " ++ feedback]
                reviewResult := none }

/-- `TipPipeline.run`, paired with the trace of collaborator calls.
`maxAttempts` is the `MAX_GENERATION_ATTEMPTS` dataclass field
(default 3). -/
def runTipPipeline (stages : TipStages) (maxAttempts : Nat)
    (limitPerFeed : Int) (publishedAt : Option Micros) :
    TipPipelineResult × TipTrace :=
  let aggregation := stages.gather limitPerFeed
  let warnings := aggregation.errors
  if aggregation.items = [] then
    ({ aggregation := aggregation,
       warnings := warnings ++ ["No aggregated content available to generate tips."],
       generation_attempts := 0 }, {})
  else
    let fetched :=
      match stages.get_latest_tips with
      | .ok tips => (tips, warnings)
      | .error exc =>
        (([] : List Tip),
          warnings ++ ["Could not fetch existing tips for comparison: " ++ exc])
    let final := tipLoop stages aggregation.items fetched.1 maxAttempts
      maxAttempts { warnings := fetched.2 }
    let trace : TipTrace :=
      { genCalls := final.genCalls, reviewCalls := final.reviewCalls }
    let approved :=
      match final.reviewResult with
      | none => none
      | some rr => if rr.is_approved then some rr else none
    match approved with
    | none =>
      ({ aggregation := aggregation, draft := final.draft,
         errors := final.errors ++
           ["Failed to generate an approved tip after " ++
             toString maxAttempts ++ " attempts."],
         warnings := final.warnings,
         generation_attempts := final.attempt,
         editor_feedback := final.feedbackLog }, trace)
    | some rr =>
      let finalDraft :=
        match rr.revised_draft with
        | some d => some d
        | none => final.draft
      match finalDraft with
      | none =>
        ({ aggregation := aggregation, draft := final.draft,
           errors := final.errors ++
             ["Editor approved review result but no draft was available."],
           warnings := final.warnings,
           generation_attempts := final.attempt,
           editor_feedback := final.feedbackLog }, trace)
      | some fd =>
        let trace := { trace with pubCalls := [fd] }
        match stages.publish fd publishedAt with
        | .error exc =>
          ({ aggregation := aggregation, draft := some fd,
             errors := final.errors ++ ["Tip publisher failed: " ++ exc],
             warnings := final.warnings,
             generation_attempts := final.attempt,
             editor_feedback := final.feedbackLog }, trace)
        | .ok publication =>
          ({ aggregation := aggregation, draft := some fd,
             tip := some publication.tip,
             publication := some publication,
             errors := final.errors,
             warnings :=
               if ¬ publication.created then
                 final.warnings ++ ["Tip already exists; skipped creating a duplicate."]
               else final.warnings,
             generation_attempts := final.attempt,
             editor_feedback := final.feedbackLog }, trace)

/-- The tip record the first `publish` call of a fresh draft passes to
`save_tip`. -/
def firstTip (draft : TipDraft) (publishedAt : Option Micros) (now : Micros) :
    Tip :=
  { title := draft.with_defaults.title
    content_body := draft.with_defaults.body
    published_date := publishedAt.getD now
    tags := draft.with_defaults.tags }

/-! ## Helper lemmas -/

theorem dropWhile_idem (p : Char → Bool) (l : List Char) :
    (l.dropWhile p).dropWhile p = l.dropWhile p := by
  induction l with
  | nil => rfl
  | cons a t ih =>
    by_cases h : p a
    · simp [List.dropWhile_cons, h, ih]
    · simp [List.dropWhile_cons, h]

theorem dropRightWhileList_idem (p : Char → Bool) (l : List Char) :
    dropRightWhileList p (dropRightWhileList p l) = dropRightWhileList p l := by
  simp [dropRightWhileList, dropWhile_idem]

theorem dropRightWhileList_cons (p : Char → Bool) (a : Char) (t : List Char) :
    dropRightWhileList p (a :: t) =
      if dropRightWhileList p t = [] then (if p a then [] else [a])
      else a :: dropRightWhileList p t := by
  simp only [dropRightWhileList, List.reverse_cons, List.dropWhile_append]
  by_cases h : t.reverse.dropWhile p = []
  · have h' : (t.reverse.dropWhile p).reverse = [] := by simp [h]
    rw [if_pos (by simp [h]), if_pos h']
    by_cases hp : p a <;> simp [List.dropWhile_cons, hp]
  · have h' : (t.reverse.dropWhile p).reverse ≠ [] := by simp [h]
    rw [if_neg (by simp [h]), if_neg h']
    simp

theorem dropWhile_dropRightWhile_dropWhile (p : Char → Bool) (l : List Char) :
    (dropRightWhileList p (l.dropWhile p)).dropWhile p =
      dropRightWhileList p (l.dropWhile p) := by
  induction l with
  | nil => rfl
  | cons a t ih =>
    by_cases h : p a
    · simpa [List.dropWhile_cons_of_pos h] using ih
    · rw [List.dropWhile_cons_of_neg (by simp [h]), dropRightWhileList_cons]
      by_cases h2 : dropRightWhileList p t = []
      · simp [h2, h, List.dropWhile_cons]
      · simp [h2, List.dropWhile_cons, h]

theorem pystrip_idem (s : String) : pystrip (pystrip s) = pystrip s := by
  unfold pystrip
  have htl : ∀ cs : List Char, (String.mk cs).toList = cs := fun _ => rfl
  rw [htl, dropWhile_dropRightWhile_dropWhile, dropRightWhileList_idem]

/-- The normalised tip title is already stripped and never empty. -/
theorem pystrip_with_defaults_title (d : TipDraft) :
    pystrip d.with_defaults.title = d.with_defaults.title ∧
      d.with_defaults.title ≠ "" := by
  show pystrip (pyor (pystrip d.title) "Longevity Tip") =
      pyor (pystrip d.title) "Longevity Tip" ∧
    pyor (pystrip d.title) "Longevity Tip" ≠ ""
  unfold pyor
  by_cases h : pystrip d.title = ""
  · simp [h]; decide
  · simp [h, pystrip_idem]

/-- A candidate accepted by `checkMatch` passed `_matches`. -/
theorem checkMatch_matches (c : Option Tip) (d : TipDraft) (t : Tip)
    (h : checkMatch c d = some t) : tipMatches t d = true := by
  cases c with
  | none => simp [checkMatch] at h
  | some x =>
    by_cases hm : tipMatches x d
    · simp only [checkMatch, if_pos hm, Option.some.injEq] at h
      rwa [← h]
    · simp [checkMatch, hm] at h

/-- Any tip `_find_existing` returns passed `_matches`. -/
theorem findExistingTip_matches (repo : TipRepo) (d : TipDraft) (t : Tip)
    (h : (findExistingTip repo d).1 = some t) : tipMatches t d = true := by
  by_cases h1 : pystrip d.title = ""
  · simp only [findExistingTip, h1, ne_eq, not_true_eq_false, if_false] at h
    by_cases h2 : d.tags = []
    · simp [h2] at h
    · simp only [h2, not_false_eq_true, if_true, ite_not] at h
      rcases hc : checkMatch (repo.find_tip_by_tags d.tags) d with _ | x
      · simp [hc] at h
      · simp only [hc] at h
        cases h
        exact checkMatch_matches _ _ _ hc
  · simp only [findExistingTip, h1, ne_eq, not_false_eq_true, if_true] at h
    rcases hc : checkMatch (repo.find_tip_by_title (pystrip d.title)) d with _ | x
    · simp only [hc] at h
      by_cases h2 : d.tags = []
      · simp [h2] at h
      · simp only [h2, not_false_eq_true, if_true, ite_not] at h
        rcases hc2 : checkMatch (repo.find_tip_by_tags d.tags) d with _ | y
        · simp [hc2] at h
        · simp only [hc2] at h
          cases h
          exact checkMatch_matches _ _ _ hc2
    · simp only [hc] at h
      cases h
      exact checkMatch_matches _ _ _ hc

/-! ## Claims -/

/-- C10: a `TipDraft` whose body is empty after normalisation makes
`TipPublisher.publish` raise `ValueError("Tip draft body cannot be
empty")` before any repository lookup or save, so no tip with an empty
body is ever stored. -/
theorem tip_publish_rejects_empty_body (repo : TipRepo) (draft : TipDraft)
    (publishedAt : Option Micros) (now : Micros)
    (hbody : pystrip draft.body = "") :
    publishTip repo draft publishedAt now =
      (.error "Tip draft body cannot be empty",
        { titleLookups := [], tagLookups := [], saves := [] }) := by
  simp [publishTip, TipDraft.with_defaults, hbody]

theorem tip_publish_rejects_empty_body_witness :
    pystrip "  \t " = "" ∧
      publishTip ⟨fun _ => none, fun _ => none, id⟩
          { title := "Title", body := "  \t " } none 0 =
        (.error "Tip draft body cannot be empty",
          { titleLookups := [], tagLookups := [], saves := [] }) :=
  ⟨by decide, tip_publish_rejects_empty_body _ _ _ _ (by decide)⟩

/-- C9: publishing the same non-empty draft twice — the second time
against a repository reflecting the first call's write — returns
`created=True` then `created=False` with exactly one stored record; the
lookup goes by exact title first (tags are not consulted on a title
match), and `created=False` happens only when title, body and tag set
all agree after trimming. -/
theorem tip_publish_idempotent (draft : TipDraft) (repo1 repo2 : TipRepo)
    (pa1 pa2 : Option Micros) (now1 now2 : Micros)
    (hbody : pystrip draft.body ≠ "")
    (h1t : repo1.find_tip_by_title (pystrip draft.with_defaults.title) = none)
    (h1g : repo1.find_tip_by_tags draft.with_defaults.tags = none)
    (hsave : ∀ t, (repo1.save_tip t).title = t.title ∧
      (repo1.save_tip t).content_body = t.content_body ∧
      (repo1.save_tip t).tags = t.tags)
    (h2t : repo2.find_tip_by_title (pystrip draft.with_defaults.title) =
      some (repo1.save_tip (firstTip draft pa1 now1))) :
    (publishTip repo1 draft pa1 now1 =
      (.ok { tip := repo1.save_tip (firstTip draft pa1 now1), created := true },
        { titleLookups := [pystrip draft.with_defaults.title]
          tagLookups :=
            if draft.with_defaults.tags = [] then [] else [draft.with_defaults.tags]
          saves := [firstTip draft pa1 now1] })) ∧
    (publishTip repo2 draft pa2 now2 =
      (.ok { tip := repo1.save_tip (firstTip draft pa1 now1), created := false },
        { titleLookups := [pystrip draft.with_defaults.title]
          tagLookups := [], saves := [] })) ∧
    (∀ (repo : TipRepo) (d : TipDraft) (pa : Option Micros) (now : Micros)
        (t : Tip) (tr : TipPubTrace),
      publishTip repo d pa now = (.ok { tip := t, created := false }, tr) →
      pystrip t.title = pystrip d.with_defaults.title ∧
      pystrip t.content_body = pystrip d.with_defaults.body ∧
      pyTagSet t.tags = pyTagSet d.with_defaults.tags) := by
  have hnb : ¬ (draft.with_defaults.body = "") := by
    show ¬ (pystrip draft.body = "")
    exact hbody
  have htitle := pystrip_with_defaults_title draft
  have hts : ¬ (pystrip draft.with_defaults.title = "") := by
    rw [htitle.1]; exact htitle.2
  refine ⟨?_, ?_, ?_⟩
  · by_cases htags : draft.with_defaults.tags = []
    · simp [publishTip, findExistingTip, checkMatch, firstTip, hnb, hts, h1t,
        htags]
    · simp [publishTip, findExistingTip, checkMatch, firstTip, hnb, hts, h1t,
        h1g, htags]
  · have hm : tipMatches (repo1.save_tip (firstTip draft pa1 now1))
        draft.with_defaults = true := by
      obtain ⟨ht, hb, hg⟩ := hsave (firstTip draft pa1 now1)
      unfold tipMatches
      rw [ht, hb, hg]
      simp [firstTip]
    simp [publishTip, findExistingTip, checkMatch, hnb, hts, h2t, hm]
  · intro repo d pa now t tr h
    have hb : ¬ (d.with_defaults.body = "") := by
      intro hb
      simp [publishTip, hb] at h
    have hfd : (findExistingTip repo d.with_defaults).1 = some t := by
      rcases hf : (findExistingTip repo d.with_defaults).1 with _ | et
      · simp [publishTip, hb, hf] at h
      · simp [publishTip, hb, hf] at h
        simp [h.1]
    have h3 := findExistingTip_matches repo d.with_defaults t hfd
    simp [tipMatches] at h3
    exact ⟨h3.1.1, h3.1.2, h3.2⟩

theorem tip_publish_idempotent_witness :
    pystrip "Drink water." ≠ "" ∧
      publishTip
          ⟨fun s => if s = "Hydrate" then
              some { title := "Hydrate", content_body := "Drink water.",
                     published_date := 7, tags := ["health"] }
            else none,
            fun _ => none, id⟩
          { title := "Hydrate", body := "Drink water.", tags := ["health"] }
          none 9 =
        (.ok { tip := { title := "Hydrate", content_body := "Drink water.",
                        published_date := 7, tags := ["health"] },
               created := false },
          { titleLookups := ["Hydrate"], tagLookups := [], saves := [] }) := by
  constructor
  · decide
  · exact (tip_publish_idempotent
      { title := "Hydrate", body := "Drink water.", tags := ["health"] }
      ⟨fun _ => none, fun _ => none, id⟩
      ⟨fun s => if s = "Hydrate" then
          some { title := "Hydrate", content_body := "Drink water.",
                 published_date := 7, tags := ["health"] }
        else none,
        fun _ => none, id⟩
      none none 7 9 (by decide) rfl rfl (fun t => ⟨rfl, rfl, rfl⟩)
      (by decide)).2.1

/-- One feed step appends exactly the feed's diagnostic (if it failed)
to the error list. -/
theorem processFeed_errors (limit : Nat) (now : Micros) (st : GatherState)
    (feed : FeedSource × FetchResult) :
    (processFeed limit now st feed).errors =
      st.errors ++ (feedFailure? feed).toList := by
  rcases feed with ⟨src, m | m | ⟨b, be, es⟩⟩
  · simp [processFeed, feedFailure?]
  · simp [processFeed, feedFailure?]
  · by_cases hb : b ∧ be.isSome
    · simp [processFeed, feedFailure?, hb]
    · simp [processFeed, feedFailure?, hb]

/-- The dedup-core part of one feed step is `coreStep` of the previous
core: it does not depend on the error accumulator. -/
theorem processFeed_core (limit : Nat) (now : Micros) (st : GatherState)
    (feed : FeedSource × FetchResult) :
    (processFeed limit now st feed).core = coreStep limit now st.core feed := by
  rcases feed with ⟨src, m | m | ⟨b, be, es⟩⟩
  · simp [processFeed, coreStep, feedFailure?]
  · simp [processFeed, coreStep, feedFailure?]
  · by_cases hb : b ∧ be.isSome
    · simp [processFeed, coreStep, feedFailure?, hb]
    · simp [processFeed, coreStep, feedFailure?, hb]

/-- The feed fold accumulates exactly the failing feeds' diagnostics,
in feed order. -/
theorem gatherFold_errors (limit : Nat) (now : Micros)
    (feeds : List (FeedSource × FetchResult)) (st : GatherState) :
    (feeds.foldl (processFeed limit now) st).errors =
      st.errors ++ feeds.filterMap feedFailure? := by
  induction feeds generalizing st with
  | nil => simp
  | cons f rest ih =>
    rw [List.foldl_cons, ih, processFeed_errors]
    cases hf : feedFailure? f <;> simp [hf, List.filterMap_cons]

/-- The dedup core of the feed fold is the `coreStep` fold. -/
theorem gatherFold_core (limit : Nat) (now : Micros)
    (feeds : List (FeedSource × FetchResult)) (st : GatherState) :
    (feeds.foldl (processFeed limit now) st).core =
      feeds.foldl (coreStep limit now) st.core := by
  induction feeds generalizing st with
  | nil => rfl
  | cons f rest ih =>
    rw [List.foldl_cons, ih, List.foldl_cons, processFeed_core]

/-- Failing feeds contribute nothing to the dedup core. -/
theorem coreStep_fold_filter (limit : Nat) (now : Micros)
    (feeds : List (FeedSource × FetchResult)) (core : GatherCore) :
    feeds.foldl (coreStep limit now) core =
      (feeds.filter (fun f => (feedFailure? f).isNone)).foldl
        (coreStep limit now) core := by
  induction feeds generalizing core with
  | nil => rfl
  | cons f rest ih =>
    rw [List.foldl_cons, List.filter_cons]
    cases hf : feedFailure? f with
    | some m =>
      have hstep : coreStep limit now core f = core := by simp [coreStep, hf]
      simp [hf, hstep, ih]
    | none => simp [hf, List.foldl_cons, ih]

/-- C5: for every feed configuration and every behaviour of the
injected fetcher and parser, `gather` returns a result (it is total by
construction — no exception escapes): each failing feed is skipped and
contributes exactly its diagnostic string to `errors` in feed order,
and the items are exactly those of the same run restricted to the
non-failing feeds. -/
theorem gather_degrades_gracefully (feeds : List (FeedSource × FetchResult))
    (limitPerFeed : Int) (now : Micros) :
    (gather feeds limitPerFeed now).errors = feeds.filterMap feedFailure? ∧
      (gather feeds limitPerFeed now).items =
        (gather (feeds.filter (fun f => (feedFailure? f).isNone))
          limitPerFeed now).items := by
  constructor
  · show (gatherCollect feeds limitPerFeed now).errors = _
    unfold gatherCollect
    rw [gatherFold_errors]
    rfl
  · unfold gather gatherCollect
    simp only
    rw [gatherFold_core, gatherFold_core, coreStep_fold_filter]

/-- Replacement (or silent drop) of a matched candidate never changes
the number of collected items. -/
theorem replaceOrDrop_length (core : GatherCore) (a : AggregatedContent)
    (nurl : String) (guid : String) (sig : String × Micros) (i : Nat) :
    ((replaceOrDrop core a nurl guid sig i).collected).length =
      core.collected.length := by
  unfold replaceOrDrop
  dsimp only
  split <;> simp [recordIndexes, removeIndexes]

/-- The dedup state after the first entry: the entry is appended and
its non-empty keys registered at index 0. -/
theorem processEntry_init (a : AggregatedContent) :
    processEntry GatherCore.init a =
      { collected := [a]
        byUrl := if normaliseUrl a.url ≠ "" then
            indexSet (fun _ => none) (normaliseUrl a.url) 0
          else fun _ => none
        byGuid := if guidKey a ≠ "" then
            indexSet (fun _ => none) (guidKey a) 0
          else fun _ => none
        bySig := indexSet (fun _ => none) (signatureKey a) 0 } := by
  unfold processEntry GatherCore.init recordIndexes
  by_cases hn : normaliseUrl a.url = "" <;> by_cases hg : guidKey a = "" <;>
    simp [hn, hg]

/-- C3: presenting the same feed entry to `gather` twice — with an
identical URL, or with the same GUID, or with the same title and
timestamp and no URLs — yields exactly one item for it in the result:
the duplicate is either dropped or replaces the original, never
appended. -/
theorem gather_dedup_idempotent (src : FeedSource) (r1 r2 : RawEntry)
    (lpf : Int) (now : Micros) (hl : 2 ≤ lpf)
    (hcase :
      ((fromFeedEntry r1 src now).url = (fromFeedEntry r2 src now).url ∧
        normaliseUrl (fromFeedEntry r1 src now).url ≠ "") ∨
      (guidKey (fromFeedEntry r1 src now) = guidKey (fromFeedEntry r2 src now) ∧
        guidKey (fromFeedEntry r1 src now) ≠ "") ∨
      ((fromFeedEntry r1 src now).url = "" ∧
        (fromFeedEntry r2 src now).url = "" ∧
        signatureKey (fromFeedEntry r1 src now) =
          signatureKey (fromFeedEntry r2 src now))) :
    (gather [(src, FetchResult.parsed false none [r1, r2])] lpf now).items.length
      = 1 := by
  have htake : [r1, r2].take (0 ⊔ lpf).toNat = [r1, r2] :=
    List.take_of_length_le (by
      have h2 : ((2 : Int)).toNat ≤ (0 ⊔ lpf).toNat :=
        Int.toNat_le_toNat (le_max_of_le_right hl)
      simpa using h2)
  simp only [gather, gatherCollect, List.foldl_cons, List.foldl_nil]
  rw [List.length_insertionSort]
  simp only [processFeed, feedFailure?]
  rw [htake]
  simp only [List.map_cons, List.map_nil, List.foldl_cons, List.foldl_nil,
    processEntry_init]
  set a1 := fromFeedEntry r1 src now with ha1
  set a2 := fromFeedEntry r2 src now with ha2
  rcases hcase with ⟨hurl, hn1⟩ | ⟨hg, hgne⟩ | ⟨hu1, hu2, hs⟩
  · have hn2 : normaliseUrl a2.url = normaliseUrl a1.url := by rw [hurl]
    simp [processEntry, hn2, hn1, indexSet, replaceOrDrop_length]
  · by_cases hn2 : normaliseUrl a2.url = ""
    · simp [processEntry, hn2, ← hg, hgne, indexSet, replaceOrDrop_length]
    · by_cases h1 : normaliseUrl a1.url = ""
      · simp [processEntry, hn2, h1, ← hg, hgne, indexSet, replaceOrDrop_length]
      · by_cases h2 : normaliseUrl a2.url = normaliseUrl a1.url
        · simp [processEntry, hn2, h1, h2, indexSet, replaceOrDrop_length]
        · simp [processEntry, hn2, h1, h2, ← hg, hgne, indexSet,
            replaceOrDrop_length]
  · have hn1 : normaliseUrl a1.url = "" := by rw [hu1]; simp [normaliseUrl]
    have hn2 : normaliseUrl a2.url = "" := by rw [hu2]; simp [normaliseUrl]
    by_cases hg2 : guidKey a2 = ""
    · simp [processEntry, hn2, hg2, ← hs, indexSet, replaceOrDrop_length]
    · by_cases hg1 : guidKey a1 = ""
      · simp [processEntry, hn2, hg2, hg1, ← hs, indexSet, replaceOrDrop_length]
      · by_cases hgg : guidKey a2 = guidKey a1
        · simp [processEntry, hn2, hg2, hg1, hgg, indexSet,
            replaceOrDrop_length]
        · simp [processEntry, hn2, hg2, hg1, hgg, ← hs, indexSet,
            replaceOrDrop_length]

theorem gather_dedup_idempotent_witness :
    normaliseUrl "https://example.com/a" ≠ "" ∧
      (gather [({ name := "F", url := "u" }, FetchResult.parsed false none
        [{ title := some "T", link := some "https://example.com/a",
           published_parsed := some 100 },
         { title := some "T", link := some "https://example.com/a",
           published_parsed := some 100 }])] 2 0).items.length = 1 :=
  ⟨by decide,
    gather_dedup_idempotent { name := "F", url := "u" }
      { title := some "T", link := some "https://example.com/a",
        published_parsed := some 100 }
      { title := some "T", link := some "https://example.com/a",
        published_parsed := some 100 }
      2 0 (by decide) (Or.inl ⟨rfl, by decide⟩)⟩

/-- C2 counterexample: `gclid` is not stripped by `_normalise_url`
(only `utm_*` is), so two URLs differing only by a `gclid` tracking
parameter normalize to different dedup keys, and two entries carrying
them (with distinct titles) do not collapse. -/
theorem tracking_invariance_counterexample :
    normaliseUrl "https://example.com/a?gclid=1" ≠
        normaliseUrl "https://example.com/a" ∧
      (gather [({ name := "F", url := "u" }, FetchResult.parsed false none
        [{ title := some "T1", link := some "https://example.com/a?gclid=1",
           published_parsed := some 100 },
         { title := some "T2", link := some "https://example.com/a",
           published_parsed := some 100 }])] 5 0).items.length = 2 := by
  constructor
  · decide
  · decide

/-- `u2` has no tracking parameters when all its query parameters are
non-`utm_`. -/
theorem hasTracking_eq_false (u2 : String) (h2ne : u2 ≠ "")
    (hall : ∀ kv ∈ parseQsl (urlparseM u2).query,
      ¬ pyStartswith (pylower kv.1) "utm_") : hasTracking u2 = false := by
  unfold hasTracking
  rw [if_neg h2ne]
  exact List.any_eq_false.mpr hall

/-- URLs that differ only by `utm_*` parameters share a dedup key. -/
theorem normaliseUrl_diffOnlyByUtm (u1 u2 : String) (h1ne : u1 ≠ "")
    (h2ne : u2 ≠ "") (hdiff : DiffOnlyByUtm u1 u2) :
    normaliseUrl u1 = normaliseUrl u2 := by
  obtain ⟨hsch, hnet, hpath, hpar, hq, hall⟩ := hdiff
  unfold normaliseUrl
  rw [if_neg h1ne, if_neg h2ne]
  dsimp only
  have hq2 : (parseQsl (urlparseM u2).query).filter
      (fun kv => ¬ pyStartswith (pylower kv.1) "utm_") =
      parseQsl (urlparseM u2).query :=
    List.filter_eq_self.mpr (fun kv hkv => by simpa using hall kv hkv)
  rw [hsch, hnet, hpath, hpar, hq, hq2]

/-- C2 (amended): two URLs that differ only by `utm_*` tracking
parameters (`gclid`/`fbclid` are not stripped by the code) normalize to
the same dedup key, and the aggregator collapses two entries carrying
them into one item whose URL is the one without the tracking
parameters, provided the tracking variant is at least as long (which
holds whenever it is the bare URL plus appended `utm_` parameters). -/
theorem tracking_invariance_amended (src : FeedSource) (r1 r2 : RawEntry)
    (u1 u2 : String) (lpf : Int) (now : Micros) (hl : 2 ≤ lpf)
    (hu1 : (fromFeedEntry r1 src now).url = u1)
    (hu2 : (fromFeedEntry r2 src now).url = u2)
    (hdiff : DiffOnlyByUtm u1 u2)
    (htrk : hasTracking u1 = true)
    (hlen : u2.length ≤ u1.length)
    (hne : normaliseUrl u2 ≠ "") :
    normaliseUrl u1 = normaliseUrl u2 ∧
      (gather [(src, FetchResult.parsed false none [r1, r2])] lpf
          now).items.map (fun i => i.url) = [u2] ∧
      (gather [(src, FetchResult.parsed false none [r2, r1])] lpf
          now).items.map (fun i => i.url) = [u2] := by
  have h1ne : u1 ≠ "" := by
    intro h
    rw [h] at htrk
    simp [hasTracking] at htrk
  have h2ne : u2 ≠ "" := by
    intro h
    rw [h] at hne
    simp [normaliseUrl] at hne
  have hnorm : normaliseUrl u1 = normaliseUrl u2 :=
    normaliseUrl_diffOnlyByUtm u1 u2 h1ne h2ne hdiff
  have htrk2 : hasTracking u2 = false :=
    hasTracking_eq_false u2 h2ne hdiff.2.2.2.2.2
  have hrep : shouldReplace (fromFeedEntry r1 src now)
      (fromFeedEntry r2 src now) = true := by
    simp [shouldReplace, hu1, hu2, h1ne, h2ne, hnorm, hne, htrk, htrk2]
  have hkeep : shouldReplace (fromFeedEntry r2 src now)
      (fromFeedEntry r1 src now) = false := by
    simp [shouldReplace, hu1, hu2, h1ne, h2ne, hnorm, hne, htrk, htrk2,
      Nat.not_lt.mpr hlen]
  have htake1 : [r1, r2].take (0 ⊔ lpf).toNat = [r1, r2] :=
    List.take_of_length_le (by
      have h2 : ((2 : Int)).toNat ≤ (0 ⊔ lpf).toNat :=
        Int.toNat_le_toNat (le_max_of_le_right hl)
      simpa using h2)
  have htake2 : [r2, r1].take (0 ⊔ lpf).toNat = [r2, r1] :=
    List.take_of_length_le (by
      have h2 : ((2 : Int)).toNat ≤ (0 ⊔ lpf).toNat :=
        Int.toNat_le_toNat (le_max_of_le_right hl)
      simpa using h2)
  have hn1 : normaliseUrl (fromFeedEntry r1 src now).url ≠ "" := by
    rw [hu1, hnorm]
    exact hne
  have hn2 : normaliseUrl (fromFeedEntry r2 src now).url ≠ "" := by
    rw [hu2]
    exact hne
  have hnn : normaliseUrl (fromFeedEntry r2 src now).url =
      normaliseUrl (fromFeedEntry r1 src now).url := by
    rw [hu1, hu2, hnorm]
  refine ⟨hnorm, ?_, ?_⟩
  · simp only [gather, gatherCollect, List.foldl_cons, List.foldl_nil]
    simp only [processFeed, feedFailure?]
    rw [htake1]
    simp only [List.map_cons, List.map_nil, List.foldl_cons, List.foldl_nil,
      processEntry_init]
    simp [processEntry, hu1, hu2, hnorm, hne, indexSet, replaceOrDrop,
      recordIndexes, removeIndexes, hrep, dummyContent,
      List.insertionSort, List.orderedInsert]
  · simp only [gather, gatherCollect, List.foldl_cons, List.foldl_nil]
    simp only [processFeed, feedFailure?]
    rw [htake2]
    simp only [List.map_cons, List.map_nil, List.foldl_cons, List.foldl_nil,
      processEntry_init]
    simp [processEntry, hu1, hu2, hnorm, hne, indexSet, replaceOrDrop,
      recordIndexes, removeIndexes, hkeep, dummyContent,
      List.insertionSort, List.orderedInsert]

theorem tracking_invariance_amended_witness :
    DiffOnlyByUtm
        "https://example.com/articles/strength-training?utm_source=rss&utm_medium=feed"
        "https://example.com/articles/strength-training" ∧
      (normaliseUrl
          "https://example.com/articles/strength-training?utm_source=rss&utm_medium=feed" =
        normaliseUrl "https://example.com/articles/strength-training" ∧
      (gather [({ name := "F", url := "u" }, FetchResult.parsed false none
          [{ title := some "Strength training linked to increased healthspan",
             link := some "https://example.com/articles/strength-training?utm_source=rss&utm_medium=feed",
             published_parsed := some 100 },
           { title := some "Strength training linked to increased healthspan",
             link := some "https://example.com/articles/strength-training",
             published_parsed := some 100 }])] 5 0).items.map (fun i => i.url) =
        ["https://example.com/articles/strength-training"] ∧
      (gather [({ name := "F", url := "u" }, FetchResult.parsed false none
          [{ title := some "Strength training linked to increased healthspan",
             link := some "https://example.com/articles/strength-training",
             published_parsed := some 100 },
           { title := some "Strength training linked to increased healthspan",
             link := some "https://example.com/articles/strength-training?utm_source=rss&utm_medium=feed",
             published_parsed := some 100 }])] 5 0).items.map (fun i => i.url) =
        ["https://example.com/articles/strength-training"]) :=
  ⟨by unfold DiffOnlyByUtm; decide,
    tracking_invariance_amended { name := "F", url := "u" }
      { title := some "Strength training linked to increased healthspan",
        link := some "https://example.com/articles/strength-training?utm_source=rss&utm_medium=feed",
        published_parsed := some 100 }
      { title := some "Strength training linked to increased healthspan",
        link := some "https://example.com/articles/strength-training",
        published_parsed := some 100 }
      "https://example.com/articles/strength-training?utm_source=rss&utm_medium=feed"
      "https://example.com/articles/strength-training"
      5 0 (by decide) (by decide) (by decide)
      (by unfold DiffOnlyByUtm; decide) (by decide) (by decide) (by decide)⟩

/-- C4: after every gather the items are sorted by `published_at`
descending, and items with equal `published_at` keep their discovery
order (the pre-sort order of the dedup fold) — Python `list.sort` is
stable. -/
theorem gather_sorted (feeds : List (FeedSource × FetchResult))
    (limitPerFeed : Int) (now : Micros) :
    List.Pairwise (fun a b => b.published_at ≤ a.published_at)
        (gather feeds limitPerFeed now).items ∧
      ∀ t : Micros,
        (gather feeds limitPerFeed now).items.filter
            (fun i => decide (i.published_at = t)) =
          (gatherCollect feeds limitPerFeed now).core.collected.filter
            (fun i => decide (i.published_at = t)) := by
  constructor
  · exact List.sorted_insertionSort publishedDesc
      (gatherCollect feeds limitPerFeed now).core.collected
  · intro t
    set l := (gatherCollect feeds limitPerFeed now).core.collected with hl
    set c := l.filter (fun i => decide (i.published_at = t)) with hc
    have hmem : ∀ i ∈ c, i.published_at = t := by
      intro i hi
      simpa using List.of_mem_filter hi
    have hpair : List.Pairwise publishedDesc c :=
      List.pairwise_of_forall_mem_list (fun a ha b hb => by
        simp [publishedDesc, hmem a ha, hmem b hb])
    have hsub : c.Sublist (List.insertionSort publishedDesc l) :=
      List.sublist_insertionSort hpair (hc ▸ List.filter_sublist l)
    have hcf : c.filter (fun i => decide (i.published_at = t)) = c :=
      List.filter_eq_self.mpr (fun a ha => by simp [hmem a ha])
    have hsub2 : c.Sublist ((List.insertionSort publishedDesc l).filter
        (fun i => decide (i.published_at = t))) := by
      have := hsub.filter (fun i => decide (i.published_at = t))
      rwa [hcf] at this
    have hperm : ((List.insertionSort publishedDesc l).filter
        (fun i => decide (i.published_at = t))).Perm c :=
      (List.perm_insertionSort publishedDesc l).filter _
    exact (hsub2.eq_of_length hperm.length_eq.symm).symm
theorem selectWithRepo_fst (repo : String → Option Article)
    (items : List AggregatedContent) :
    (selectWithRepo repo items).1 =
      items.find? (fun i =>
        decide (pystrip i.url ≠ "") && (repo (pystrip i.url)).isNone) := by
  induction items with
  | nil => rfl
  | cons i rest ih =>
    by_cases hu : pystrip i.url = ""
    · simp [selectWithRepo, hu, List.find?_cons, ih]
    · rcases hr : repo (pystrip i.url) with _ | a
      · simp [selectWithRepo, hu, hr, List.find?_cons]
      · simp [selectWithRepo, hu, hr, List.find?_cons, ih]

/-- The selection loop performs one lookup per non-blank candidate URL,
in order, up to and including the first unseen one. -/
theorem selectWithRepo_snd (repo : String → Option Article)
    (items : List AggregatedContent) :
    (selectWithRepo repo items).2 =
      takeThroughFirst (fun u => (repo u).isNone)
        ((items.filter (fun i => decide (pystrip i.url ≠ ""))).map
          (fun i => pystrip i.url)) := by
  induction items with
  | nil => rfl
  | cons i rest ih =>
    by_cases hu : pystrip i.url = ""
    · simp [selectWithRepo, hu, List.filter_cons, ih]
    · rcases hr : repo (pystrip i.url) with _ | a
      · simp [selectWithRepo, hu, hr, takeThroughFirst, List.filter_cons,
          List.takeWhile_cons, List.dropWhile_cons]
      · simp [selectWithRepo, hu, hr, takeThroughFirst, List.filter_cons,
          List.takeWhile_cons, List.dropWhile_cons, ih]

/-- The repository-less selection loop is "first item with a non-blank
URL". -/
theorem selectNoRepo_eq_find (items : List AggregatedContent) :
    selectNoRepo items = items.find? (fun i => decide (pystrip i.url ≠ "")) := by
  induction items with
  | nil => rfl
  | cons i rest ih =>
    by_cases hu : pystrip i.url = ""
    · simp [selectNoRepo, hu, List.find?_cons, ih]
    · simp [selectNoRepo, hu, List.find?_cons]

/-- C6: with a repository, the pipeline selects the first aggregated
item whose non-blank URL is not already stored, calling
`find_article_by_source_url` once per candidate in order until an
unseen one is found; without a repository it selects the first item
with a non-blank URL; only the selected item is summarized, edited and
published. -/
theorem article_freshness_selection :
    (∀ (repo : String → Option Article) (items : List AggregatedContent),
      (selectWithRepo repo items).1 =
        items.find? (fun i =>
          decide (pystrip i.url ≠ "") && (repo (pystrip i.url)).isNone) ∧
      (selectWithRepo repo items).2 =
        takeThroughFirst (fun u => (repo u).isNone)
          ((items.filter (fun i => decide (pystrip i.url ≠ ""))).map
            (fun i => pystrip i.url))) ∧
    (∀ items : List AggregatedContent,
      selectNoRepo items =
        items.find? (fun i => decide (pystrip i.url ≠ ""))) ∧
    (∀ (p : ArticleStages) (repo : String → Option Article) (limit : Int)
        (slug cm : Option String) (pa : Option Micros)
        (item : AggregatedContent) (draft : ArticleDraft)
        (edited : EditedArticle) (pub : PublicationResult),
      p.repository = some repo →
      (selectWithRepo repo (p.gather limit).items).1 = some item →
      p.summarize [item] = .ok draft →
      p.revise draft = .ok edited →
      (∀ s c t, p.publish edited s c t = .ok pub) →
      runContentPipeline p limit slug cm pa =
        ({ aggregation := p.gather limit, draft := some draft,
           edited := some edited, publication := some pub, errors := [],
           warnings := (p.gather limit).errors },
         { repoCalls := (selectWithRepo repo (p.gather limit).items).2,
           summarizerCalls := [[item]], editorCalls := [draft],
           publisherCalls := [edited] })) ∧
    (∀ (p : ArticleStages) (limit : Int) (slug cm : Option String)
        (pa : Option Micros) (item : AggregatedContent)
        (draft : ArticleDraft) (edited : EditedArticle)
        (pub : PublicationResult),
      p.repository = none →
      selectNoRepo (p.gather limit).items = some item →
      p.summarize [item] = .ok draft →
      p.revise draft = .ok edited →
      (∀ s c t, p.publish edited s c t = .ok pub) →
      runContentPipeline p limit slug cm pa =
        ({ aggregation := p.gather limit, draft := some draft,
           edited := some edited, publication := some pub, errors := [],
           warnings := (p.gather limit).errors },
         { repoCalls := [], summarizerCalls := [[item]],
           editorCalls := [draft], publisherCalls := [edited] })) := by
  refine ⟨fun repo items => ⟨selectWithRepo_fst repo items,
    selectWithRepo_snd repo items⟩, selectNoRepo_eq_find, ?_, ?_⟩
  · intro p repo limit slug cm pa item draft edited pub hrepo hsel hsum hrev hpub
    simp [runContentPipeline, hrepo, hsel, hsum, hrev, hpub]
  · intro p limit slug cm pa item draft edited pub hrepo hsel hsum hrev hpub
    simp [runContentPipeline, hrepo, hsel, hsum, hrev, hpub]

theorem article_freshness_selection_witness :
    (selectWithRepo
        (fun u => if u = "https://seen.example/a" then
          some { title := "Old", content_body := "x" } else none)
        [{ title := "A", url := "https://seen.example/a", summary := "",
           published_at := 1, source := "S" },
         { title := "B", url := "https://fresh.example/b", summary := "",
           published_at := 0, source := "S" }]).1 =
      some { title := "B", url := "https://fresh.example/b", summary := "",
             published_at := 0, source := "S" } ∧
    runContentPipeline
        { gather := fun _ =>
            { items := [{ title := "A", url := "https://seen.example/a",
                          summary := "", published_at := 1, source := "S" },
                        { title := "B", url := "https://fresh.example/b",
                          summary := "", published_at := 0, source := "S" }],
              errors := [] }
          summarize := fun _ => .ok { title := "B", summary := "s", body := "b" }
          revise := fun _ => .ok { title := "B", summary := "s", body := "b" }
          publish := fun _ _ _ _ =>
            .ok { slug := "b", path := "b.md", published_at := 3 }
          repository := some (fun u => if u = "https://seen.example/a" then
            some { title := "Old", content_body := "x" } else none) }
        5 none none none =
      ({ aggregation :=
           { items := [{ title := "A", url := "https://seen.example/a",
                         summary := "", published_at := 1, source := "S" },
                       { title := "B", url := "https://fresh.example/b",
                         summary := "", published_at := 0, source := "S" }],
             errors := [] }
         draft := some { title := "B", summary := "s", body := "b" }
         edited := some { title := "B", summary := "s", body := "b" }
         publication := some { slug := "b", path := "b.md", published_at := 3 }
         errors := [], warnings := [] },
       { repoCalls := ["https://seen.example/a", "https://fresh.example/b"]
         summarizerCalls := [[{ title := "B", url := "https://fresh.example/b",
                                summary := "", published_at := 0,
                                source := "S" }]]
         editorCalls := [{ title := "B", summary := "s", body := "b" }]
         publisherCalls := [{ title := "B", summary := "s", body := "b" }] }) := by
  constructor
  · decide
  · exact article_freshness_selection.2.2.1
      { gather := fun _ =>
          { items := [{ title := "A", url := "https://seen.example/a",
                        summary := "", published_at := 1, source := "S" },
                      { title := "B", url := "https://fresh.example/b",
                        summary := "", published_at := 0, source := "S" }],
            errors := [] }
        summarize := fun _ => .ok { title := "B", summary := "s", body := "b" }
        revise := fun _ => .ok { title := "B", summary := "s", body := "b" }
        publish := fun _ _ _ _ =>
          .ok { slug := "b", path := "b.md", published_at := 3 }
        repository := some (fun u => if u = "https://seen.example/a" then
          some { title := "Old", content_body := "x" } else none) }
      (fun u => if u = "https://seen.example/a" then
        some { title := "Old", content_body := "x" } else none)
      5 none none none
      { title := "B", url := "https://fresh.example/b", summary := "",
        published_at := 0, source := "S" }
      { title := "B", summary := "s", body := "b" }
      { title := "B", summary := "s", body := "b" }
      { slug := "b", path := "b.md", published_at := 3 }
      rfl (by decide) rfl rfl (fun _ _ _ => rfl)

/-- C7: when aggregation yields items and the generator always returns
a draft whose body is whitespace-only, the pipeline makes exactly
`MAX_GENERATION_ATTEMPTS` (3) generation calls, records the terminal
error, and never calls the publisher (`publication` is `none`). -/
theorem tip_retry_bound (stages : TipStages) (limit : Int)
    (pa : Option Micros) (dfn : Nat → Option String → TipDraft)
    (hitems : (stages.gather limit).items ≠ [])
    (hgen : ∀ a f,
      stages.generate a (stages.gather limit).items f = .ok (some (dfn a f)))
    (hempty : ∀ a f, pystrip (dfn a f).body = "") :
    (runTipPipeline stages 3 limit pa).1.errors =
        ["Failed to generate an approved tip after 3 attempts."] ∧
      (runTipPipeline stages 3 limit pa).1.publication = none ∧
      (runTipPipeline stages 3 limit pa).1.generation_attempts = 3 ∧
      (runTipPipeline stages 3 limit pa).2.genCalls.length = 3 ∧
      (runTipPipeline stages 3 limit pa).2.pubCalls = [] := by
  rcases htips : stages.get_latest_tips with exc | tips <;>
    simp [runTipPipeline, tipLoop, hitems, htips, hgen, hempty] <;> rfl

theorem tip_retry_bound_witness :
    ((({ gather := fun _ =>
          { items := [{ title := "I", url := "", summary := "",
                        published_at := 0, source := "S" }], errors := [] }
         get_latest_tips := .ok []
         generate := fun _ _ _ => .ok (some { title := "t", body := " " })
         review := fun _ _ _ => .ok { is_approved := false }
         publish := fun _ _ => .error "never called" } : TipStages).gather
        5).items ≠ []) ∧
    (runTipPipeline
        { gather := fun _ =>
            { items := [{ title := "I", url := "", summary := "",
                          published_at := 0, source := "S" }], errors := [] }
          get_latest_tips := .ok []
          generate := fun _ _ _ => .ok (some { title := "t", body := " " })
          review := fun _ _ _ => .ok { is_approved := false }
          publish := fun _ _ => .error "never called" } 3 5 none).1.errors =
      ["Failed to generate an approved tip after 3 attempts."] :=
  ⟨by decide,
    (tip_retry_bound
      { gather := fun _ =>
          { items := [{ title := "I", url := "", summary := "",
                        published_at := 0, source := "S" }], errors := [] }
        get_latest_tips := .ok []
        generate := fun _ _ _ => .ok (some { title := "t", body := " " })
        review := fun _ _ _ => .ok { is_approved := false }
        publish := fun _ _ => .error "never called" }
      5 none (fun _ _ => { title := "t", body := " " })
      (by decide) (fun _ _ => rfl)
      (fun _ _ => (by decide : pystrip " " = ""))).1⟩

/-- C8: when the editor rejects the first two attempts and approves the
third, `generation_attempts` is 3, `editor_feedback` has exactly three
entries, and the published tip is built from the editor's
`revised_draft` when provided, else from the approved attempt's
generated draft. -/
theorem tip_rejected_then_approved (stages : TipStages) (limit : Int)
    (pa : Option Micros) (dfn : Nat → Option String → TipDraft)
    (existing : List Tip) (fb3 : Option String) (rd : Option TipDraft)
    (pub : TipPublicationResult)
    (hitems : (stages.gather limit).items ≠ [])
    (htips : stages.get_latest_tips = .ok existing)
    (hgen : ∀ a f,
      stages.generate a (stages.gather limit).items f = .ok (some (dfn a f)))
    (hne : ∀ a f, ¬ (pystrip (dfn a f).body = ""))
    (hrev1 : ∀ d, stages.review 1 d existing =
      .ok { is_approved := false, feedback := some "too generic" })
    (hrev2 : ∀ d, stages.review 2 d existing =
      .ok { is_approved := false, feedback := some "too generic" })
    (hrev3 : ∀ d, stages.review 3 d existing =
      .ok { is_approved := true, feedback := fb3, revised_draft := rd })
    (hpub : ∀ d t, stages.publish d t = .ok pub) :
    (runTipPipeline stages 3 limit pa).1.generation_attempts = 3 ∧
      (runTipPipeline stages 3 limit pa).1.editor_feedback.length = 3 ∧
      (runTipPipeline stages 3 limit pa).2.pubCalls =
        [rd.getD (dfn 3 (some "too generic"))] ∧
      (runTipPipeline stages 3 limit pa).1.draft =
        some (rd.getD (dfn 3 (some "too generic"))) ∧
      (runTipPipeline stages 3 limit pa).1.publication = some pub := by
  rcases rd with _ | r <;>
    rcases fb3 with _ | f <;>
      simp [runTipPipeline, tipLoop, hitems, htips, hgen, hne, hrev1, hrev2,
        hrev3, hpub, pyor,
        (by decide : ¬ (("too generic" : String) = ""))]

theorem tip_rejected_then_approved_witness :
    ((({ gather := fun _ =>
          { items := [{ title := "I", url := "", summary := "",
                        published_at := 0, source := "S" }], errors := [] }
         get_latest_tips := .ok []
         generate := fun _ _ _ => .ok (some { title := "T", body := "Do X." })
         review := fun a _ _ =>
           if a < 3 then
             .ok { is_approved := false, feedback := some "too generic" }
           else .ok { is_approved := true }
         publish := fun _ _ =>
           .ok { tip := { title := "T", content_body := "Do X." },
                 created := true } } : TipStages).gather 5).items ≠ []) ∧
    (runTipPipeline
        { gather := fun _ =>
            { items := [{ title := "I", url := "", summary := "",
                          published_at := 0, source := "S" }], errors := [] }
          get_latest_tips := .ok []
          generate := fun _ _ _ => .ok (some { title := "T", body := "Do X." })
          review := fun a _ _ =>
            if a < 3 then
              .ok { is_approved := false, feedback := some "too generic" }
            else .ok { is_approved := true }
          publish := fun _ _ =>
            .ok { tip := { title := "T", content_body := "Do X." },
                  created := true } } 3 5 none).1.generation_attempts = 3 :=
  ⟨by decide,
    (tip_rejected_then_approved
      { gather := fun _ =>
          { items := [{ title := "I", url := "", summary := "",
                        published_at := 0, source := "S" }], errors := [] }
        get_latest_tips := .ok []
        generate := fun _ _ _ => .ok (some { title := "T", body := "Do X." })
        review := fun a _ _ =>
          if a < 3 then
            .ok { is_approved := false, feedback := some "too generic" }
          else .ok { is_approved := true }
        publish := fun _ _ =>
          .ok { tip := { title := "T", content_body := "Do X." },
                created := true } }
      5 none (fun _ _ => { title := "T", body := "Do X." }) [] none none
      { tip := { title := "T", content_body := "Do X." }, created := true }
      (by decide) rfl (fun _ _ => rfl)
      (fun _ _ => (by decide : ¬ (pystrip "Do X." = "")))
      (fun _ => rfl) (fun _ => rfl) (fun _ => rfl) (fun _ _ => rfl)).1⟩

/-- C1 counterexample: a concrete run in which the publisher raises.
The run aborts (`publication = none`) and the partial result is kept,
but `errors` comes back empty — the failure is not recorded as an
error, refuting the claim as stated. -/
theorem article_publisher_failure_counterexample :
    runContentPipeline
        { gather := fun _ =>
            { items := [{ title := "T", url := "https://example.com/a",
                          summary := "", published_at := 0, source := "S" }],
              errors := [] }
          summarize := fun _ => .ok { title := "T", summary := "s", body := "b" }
          revise := fun _ => .ok { title := "T", summary := "s", body := "b" }
          publish := fun _ _ _ _ => .error "disk full"
          repository := none } 5 none none none =
      ({ aggregation :=
           { items := [{ title := "T", url := "https://example.com/a",
                         summary := "", published_at := 0, source := "S" }],
             errors := [] }
         draft := some { title := "T", summary := "s", body := "b" }
         edited := some { title := "T", summary := "s", body := "b" }
         publication := none, errors := [], warnings := [] },
       { repoCalls := []
         summarizerCalls := [[{ title := "T", url := "https://example.com/a",
                                summary := "", published_at := 0,
                                source := "S" }]]
         editorCalls := [{ title := "T", summary := "s", body := "b" }]
         publisherCalls := [{ title := "T", summary := "s", body := "b" }] }) := by
  decide

/-- C1 (amended): when the publisher's `publish` raises, the run aborts
(`publication` is `none`) and the partial result preserving aggregation,
draft and edited is returned — but the failure is only logged, and
`errors` is returned unchanged (empty), not recorded in the errors
list (the `errors.append` on this path is commented out in the
source). -/
theorem article_publisher_failure_aborts
    (p : ArticleStages) (limit : Int) (slug commitMessage : Option String)
    (publishedAt : Option Micros) (item : AggregatedContent)
    (draft : ArticleDraft) (edited : EditedArticle) (msg : String)
    (hsel : (match p.repository with
      | some repo => (selectWithRepo repo (p.gather limit).items).1
      | none => selectNoRepo (p.gather limit).items) = some item)
    (hsum : p.summarize [item] = .ok draft)
    (hrev : p.revise draft = .ok edited)
    (hpub : ∀ s c t, p.publish edited s c t = .error msg) :
    (runContentPipeline p limit slug commitMessage publishedAt).1 =
      { aggregation := p.gather limit, draft := some draft,
        edited := some edited, publication := none, errors := [],
        warnings := (p.gather limit).errors } := by
  cases hrepo : p.repository with
  | none =>
    simp only [hrepo] at hsel
    simp [runContentPipeline, hrepo, hsel, hsum, hrev, hpub]
  | some repo =>
    simp only [hrepo] at hsel
    simp [runContentPipeline, hrepo, hsel, hsum, hrev, hpub]

theorem article_publisher_failure_aborts_witness :
    (match (none : Option (String → Option Article)) with
      | some repo => (selectWithRepo repo
          [{ title := "W", url := "https://example.com/w", summary := "",
             published_at := 0, source := "S" }]).1
      | none => selectNoRepo
          [{ title := "W", url := "https://example.com/w", summary := "",
             published_at := 0, source := "S" }]) =
        some { title := "W", url := "https://example.com/w", summary := "",
               published_at := 0, source := "S" } ∧
    (runContentPipeline
        { gather := fun _ =>
            { items := [{ title := "W", url := "https://example.com/w",
                          summary := "", published_at := 0, source := "S" }],
              errors := ["feed down"] }
          summarize := fun _ => .ok { title := "W", summary := "s", body := "b" }
          revise := fun _ => .ok { title := "W", summary := "s", body := "b" }
          publish := fun _ _ _ _ => .error "boom"
          repository := none } 5 none none none).1 =
      { aggregation :=
          { items := [{ title := "W", url := "https://example.com/w",
                        summary := "", published_at := 0, source := "S" }],
            errors := ["feed down"] }
        draft := some { title := "W", summary := "s", body := "b" }
        edited := some { title := "W", summary := "s", body := "b" }
        publication := none, errors := [], warnings := ["feed down"] } :=
  ⟨by decide,
    article_publisher_failure_aborts
      { gather := fun _ =>
          { items := [{ title := "W", url := "https://example.com/w",
                        summary := "", published_at := 0, source := "S" }],
            errors := ["feed down"] }
        summarize := fun _ => .ok { title := "W", summary := "s", body := "b" }
        revise := fun _ => .ok { title := "W", summary := "s", body := "b" }
        publish := fun _ _ _ _ => .error "boom"
        repository := none }
      5 none none none
      { title := "W", url := "https://example.com/w", summary := "",
        published_at := 0, source := "S" }
      { title := "W", summary := "s", body := "b" }
      { title := "W", summary := "s", body := "b" }
      "boom" (by decide) rfl rfl (fun _ _ _ => rfl)⟩

end LiveOn
